import Mathlib

/-!
Verification of the pipeline-orchestration core of the arboris-novel backend.

The definitions below are a shallow embedding of
`backend/app/services/pipeline_orchestrator.py` and
`backend/app/services/knowledge_retrieval_service.py`.
LLM calls, vector-store searches and database reads are external
collaborators (spec section 6); each is embedded as an explicit oracle
argument: an `Except String α` value models one awaited call that either
returns normally or raises, an `Option` models a nullable result.
Python dictionaries holding JSON data are embedded as an inductive `Json`
type, and `json.loads` as an abstract parse function `String → Option Json`
(`none` models a raised `JSONDecodeError`).
-/

namespace Arboris

/-! ### PipelineConfig resolution (`pipeline_orchestrator.py`, `_resolve_config`) -/

/-- The resolved, immutable configuration snapshot: the `PipelineConfig`
dataclass with its source default values. -/
structure PipelineConfig where
  preset : String := "basic"
  version_count : Nat := 2
  enable_preview : Bool := false
  enable_optimizer : Bool := false
  enable_consistency : Bool := false
  enable_enrichment : Bool := false
  async_finalize : Bool := false
  enable_constitution : Bool := false
  enable_persona : Bool := false
  enable_six_dimension : Bool := false
  enable_reader_sim : Bool := false
  enable_self_critique : Bool := false
  enable_memory : Bool := false
  enable_rag : Bool := true
  rag_mode : String := "simple"
  enable_foreshadowing : Bool := false
  enable_faction : Bool := false
  deriving Repr, DecidableEq

/-- The request's `flow_config` dict.  `_resolve_config` reads exactly the
keys below (source lines 350-384); any other key in the dict is never read,
so the embedding omits unrecognized keys.  A `none` field models a key that
is absent or maps to `None` (the override loop skips both identically via
`if key in flow_config and flow_config[key] is not None`); `some b` models a
present value of truthiness `b` (the code applies `bool(...)`). -/
structure FlowConfig where
  preset : Option String := none
  enable_preview : Option Bool := none
  enable_optimizer : Option Bool := none
  enable_consistency : Option Bool := none
  enable_enrichment : Option Bool := none
  async_finalize : Option Bool := none
  enable_rag : Option Bool := none
  rag_mode : Option String := none
  deriving Repr, DecidableEq

/-- `PipelineOrchestrator._resolve_config` (source lines 349-395).
`versionCount` stands for the awaited result of `_resolve_version_count`
(a layered lookup through request value, system config, environment and
settings; it does not depend on the preset or the flag keys). -/
def resolveConfig (fc : FlowConfig) (versionCount : Nat) : PipelineConfig :=
  let preset := fc.preset.getD "basic"
  let c : PipelineConfig := { preset := preset, version_count := versionCount }
  let c :=
    if preset = "enhanced" ∨ preset = "ultimate" then
      { c with enable_constitution := true, enable_persona := true,
               enable_foreshadowing := true, enable_faction := true,
               rag_mode := "two_stage" }
    else c
  let c := if preset = "enhanced" then { c with enable_six_dimension := true } else c
  let c := if preset = "ultimate" then { c with enable_memory := true } else c
  let c := if preset = "basic" then { c with enable_rag := true } else c
  -- explicit request overrides, applied only for present non-None keys
  let c := { c with
    enable_preview := fc.enable_preview.getD c.enable_preview,
    enable_optimizer := fc.enable_optimizer.getD c.enable_optimizer,
    enable_consistency := fc.enable_consistency.getD c.enable_consistency,
    enable_enrichment := fc.enable_enrichment.getD c.enable_enrichment,
    async_finalize := fc.async_finalize.getD c.async_finalize,
    enable_rag := fc.enable_rag.getD c.enable_rag }
  let c :=
    match fc.rag_mode with
    | some m => if m ≠ "" then { c with rag_mode := m } else c
    | none => c
  -- preset ultimate's exclusions, applied last
  let c :=
    if preset = "ultimate" then
      { c with enable_preview := false, enable_optimizer := false,
               enable_consistency := false, enable_enrichment := false,
               enable_six_dimension := false, enable_reader_sim := false,
               enable_self_critique := false }
    else c
  c

/-- C1: with `preset="ultimate"`, the resolved config has all seven excluded
stage flags false, for every `flow_config` — in particular even when the
request passes explicit true values for those keys, because the ultimate
exclusion block runs after the explicit-override loop. -/
theorem resolveConfig_ultimate_forces_exclusions
    (fc : FlowConfig) (vc : Nat) (h : fc.preset = some "ultimate") :
    (resolveConfig fc vc).enable_preview = false ∧
    (resolveConfig fc vc).enable_optimizer = false ∧
    (resolveConfig fc vc).enable_consistency = false ∧
    (resolveConfig fc vc).enable_enrichment = false ∧
    (resolveConfig fc vc).enable_six_dimension = false ∧
    (resolveConfig fc vc).enable_reader_sim = false ∧
    (resolveConfig fc vc).enable_self_critique = false := by
  simp [resolveConfig, h]

/-- C1 witness: a concrete ultimate request that explicitly asks for the
excluded stages to be on still resolves with all of them off. -/
theorem resolveConfig_ultimate_forces_exclusions_witness :
    ({ preset := some "ultimate", enable_preview := some true,
       enable_optimizer := some true, enable_consistency := some true,
       enable_enrichment := some true, async_finalize := some true,
       enable_rag := some true, rag_mode := some "two_stage" } : FlowConfig).preset
      = some "ultimate" ∧
    (resolveConfig
      { preset := some "ultimate", enable_preview := some true,
        enable_optimizer := some true, enable_consistency := some true,
        enable_enrichment := some true, async_finalize := some true,
        enable_rag := some true, rag_mode := some "two_stage" } 3).enable_preview = false ∧
    (resolveConfig
      { preset := some "ultimate", enable_preview := some true,
        enable_optimizer := some true, enable_consistency := some true,
        enable_enrichment := some true, async_finalize := some true,
        enable_rag := some true, rag_mode := some "two_stage" } 3).enable_optimizer = false ∧
    (resolveConfig
      { preset := some "ultimate", enable_preview := some true,
        enable_optimizer := some true, enable_consistency := some true,
        enable_enrichment := some true, async_finalize := some true,
        enable_rag := some true, rag_mode := some "two_stage" } 3).enable_consistency = false ∧
    (resolveConfig
      { preset := some "ultimate", enable_preview := some true,
        enable_optimizer := some true, enable_consistency := some true,
        enable_enrichment := some true, async_finalize := some true,
        enable_rag := some true, rag_mode := some "two_stage" } 3).enable_enrichment = false ∧
    (resolveConfig
      { preset := some "ultimate", enable_preview := some true,
        enable_optimizer := some true, enable_consistency := some true,
        enable_enrichment := some true, async_finalize := some true,
        enable_rag := some true, rag_mode := some "two_stage" } 3).enable_six_dimension = false ∧
    (resolveConfig
      { preset := some "ultimate", enable_preview := some true,
        enable_optimizer := some true, enable_consistency := some true,
        enable_enrichment := some true, async_finalize := some true,
        enable_rag := some true, rag_mode := some "two_stage" } 3).enable_reader_sim = false ∧
    (resolveConfig
      { preset := some "ultimate", enable_preview := some true,
        enable_optimizer := some true, enable_consistency := some true,
        enable_enrichment := some true, async_finalize := some true,
        enable_rag := some true, rag_mode := some "two_stage" } 3).enable_self_critique = false :=
  ⟨rfl,
   (resolveConfig_ultimate_forces_exclusions _ 3 rfl).1,
   (resolveConfig_ultimate_forces_exclusions _ 3 rfl).2.1,
   (resolveConfig_ultimate_forces_exclusions _ 3 rfl).2.2.1,
   (resolveConfig_ultimate_forces_exclusions _ 3 rfl).2.2.2.1,
   (resolveConfig_ultimate_forces_exclusions _ 3 rfl).2.2.2.2.1,
   (resolveConfig_ultimate_forces_exclusions _ 3 rfl).2.2.2.2.2.1,
   (resolveConfig_ultimate_forces_exclusions _ 3 rfl).2.2.2.2.2.2⟩

/-! ### JSON values and `_extract_text` (`pipeline_orchestrator.py`, lines 900-918) -/

/-- A parsed Python JSON value (`json.loads` result). -/
inductive Json where
  | null
  | bool (b : Bool)
  | num (n : Int)
  | str (s : String)
  | arr (items : List Json)
  | obj (fields : List (String × Json))

/-- Python truthiness of a JSON value (`if not value`, `if value.get(key)`). -/
def Json.truthy : Json → Bool
  | .null => false
  | .bool b => b
  | .num n => n != 0
  | .str s => s != ""
  | .arr items => !items.isEmpty
  | .obj fields => !fields.isEmpty

/-- `dict.get(key)`: the binding for the key, if any. -/
def lookupField : List (String × Json) → String → Option Json
  | [], _ => none
  | (k', v) :: rest, k => if k' = k then some v else lookupField rest k

theorem sizeOf_lookupField {fs : List (String × Json)} {k : String} {v : Json}
    (h : lookupField fs k = some v) : sizeOf v < sizeOf fs := by
  induction fs with
  | nil => simp [lookupField] at h
  | cons p rest ih =>
    obtain ⟨k', v'⟩ := p
    by_cases hk : k' = k
    · simp [lookupField, hk] at h
      subst h
      simp
      omega
    · simp [lookupField, hk] at h
      have := ih h
      simp
      omega

/-- The content-bearing key names probed by `_extract_text`, in probe order. -/
def contentKeys : List String :=
  ["content", "chapter_content", "chapter_text", "text", "body", "story"]

mutual

/-- `PipelineOrchestrator._extract_text`: recursively descend dict/list
structure looking for the first truthy content-bearing string. -/
def extractText (v : Json) : Option String :=
  if v.truthy = false then none
  else
    match v with
    | .str s => some s
    | .obj fields => extractFromKeys fields contentKeys
    | .arr items => extractFromArr items
    | _ => none
termination_by (sizeOf v, 0)

/-- The `for key in (...)` loop of `_extract_text` over a dict. -/
def extractFromKeys (fields : List (String × Json)) : List String → Option String
  | [] => none
  | k :: ks =>
    match h : lookupField fields k with
    | some v =>
      if v.truthy then
        match extractText v with
        | some s => some s
        | none => extractFromKeys fields ks
      else extractFromKeys fields ks
    | none => extractFromKeys fields ks
termination_by ks => (sizeOf fields, ks.length + 1)
decreasing_by
  · exact Prod.Lex.left _ _ (sizeOf_lookupField h)
  · exact Prod.Lex.right _ (by simp only [List.length_cons]; omega)
  · exact Prod.Lex.right _ (by simp only [List.length_cons]; omega)
  · exact Prod.Lex.right _ (by simp only [List.length_cons]; omega)

/-- The `for item in value` loop of `_extract_text` over a list. -/
def extractFromArr : List Json → Option String
  | [] => none
  | v :: rest =>
    match extractText v with
    | some s => some s
    | none => extractFromArr rest
termination_by l => (sizeOf l, 0)

end

/-! ### Python string primitives

The source uses the Python `str` methods `strip`, `split`, `replace`,
`startswith` and slicing.  They are embedded here on character lists with
structural (fuel) recursion, so that concrete runs evaluate inside the
kernel.  The fuel is the input length; each step consumes at least one
character, so the fuel never runs out for the separators used here (all
non-empty). -/

/-- `str.strip()` on a character list: drop whitespace from both ends. -/
def stripList (l : List Char) : List Char :=
  ((l.dropWhile Char.isWhitespace).reverse.dropWhile Char.isWhitespace).reverse

/-- Python `s.strip()`. -/
def pyStrip (s : String) : String := String.mk (stripList s.data)

/-- Worker for `str.split(sep)` (non-empty `sep`). -/
def splitAuxL (sep : List Char) : Nat → List Char → List Char → List (List Char)
  | _, cur, [] => [cur.reverse]
  | 0, cur, rest => [cur.reverse ++ rest]
  | fuel + 1, cur, c :: rest =>
    if sep.isPrefixOf (c :: rest) then
      cur.reverse :: splitAuxL sep fuel [] ((c :: rest).drop sep.length)
    else splitAuxL sep fuel (c :: cur) rest

/-- Python `s.split(sep)` for non-empty `sep`. -/
def pySplit (s sep : String) : List String :=
  (splitAuxL sep.data s.data.length [] s.data).map String.mk

/-- Worker for `str.replace(pat, sub)` (non-empty `pat`). -/
def replaceAuxL (pat sub : List Char) : Nat → List Char → List Char
  | _, [] => []
  | 0, l => l
  | fuel + 1, c :: rest =>
    if pat.isPrefixOf (c :: rest) then
      sub ++ replaceAuxL pat sub fuel ((c :: rest).drop pat.length)
    else c :: replaceAuxL pat sub fuel rest

/-- Python `s.replace(pat, sub)` for non-empty `pat`. -/
def pyReplace (s pat sub : String) : String :=
  String.mk (replaceAuxL pat.data sub.data s.data.length s.data)

/-- Python `s.startswith(p)`. -/
def pyStartsWith (s p : String) : Bool := p.data.isPrefixOf s.data

/-- Python `s[n:]`. -/
def pySlice (s : String) (n : Nat) : String := String.mk (s.data.drop n)

/-! ### Response cleanup helpers

`remove_think_tags` and `unwrap_markdown_json` live in
`app/utils/json_utils.py`, which is not part of the provided sources; they
are modelled from the spec. -/

/-- Modelled from the spec: `remove_think_tags` (`app/utils/json_utils.py`,
file absent from the provided sources) "strips any reasoning/thinking markup
from the raw response" (spec sections 4.2 and 4.5): every
`<think>`...`</think>` segment is deleted. -/
def removeThinkTags (s : String) : String :=
  match pySplit s "<think>" with
  | [] => s
  | x :: rest =>
    x ++ String.join (rest.map fun t => String.join ((pySplit t "</think>").drop 1))

/-- Modelled from the spec: `unwrap_markdown_json` (`app/utils/json_utils.py`,
file absent from the provided sources) "unwraps markdown code fences" (spec
section 4.2), returning the input unchanged when it is not fenced. -/
def unwrapMarkdownJson (s : String) : String :=
  let t := pyStrip s
  if pyStartsWith t "```" then
    let inner := pyStrip ((pySplit t "```").getD 1 "")
    if pyStartsWith inner "json" then pyStrip (pySlice inner 4) else inner
  else s

/-! ### Version text extraction (`_generate_single_version`, lines 804-820) -/

/-- Python `a or b` on an optional string: the default is used when the
extracted value is `None` or empty. -/
def pyOrStr (o : Option String) (dflt : String) : String :=
  match o with
  | some s => if s = "" then dflt else s
  | none => dflt

/-- The content returned for a version: `json.loads` + `_extract_text` with
plain-text fallback (`extracted_text or content`).  `parse` embeds
`json.loads`; `none` models a raised `JSONDecodeError`. -/
def finalContent (parse : String → Option Json) (content : String) : String :=
  pyOrStr ((parse content).bind extractText) content

/-- C5: version text extraction is uniform over structured and plain
responses.  If the content parses as a JSON object binding a non-empty
string X directly under any of the content-bearing keys, the returned
content is X; likewise when X is nested one object level deeper under two
such keys; if the content is not parseable JSON, it is returned unchanged. -/
theorem finalContent_uniform_extraction
    (parse : String → Option Json) (content X k k2 : String)
    (hk : k ∈ contentKeys) (hk2 : k2 ∈ contentKeys) (hX : X ≠ "") :
    (parse content = some (Json.obj [(k, Json.str X)]) →
      finalContent parse content = X) ∧
    (parse content = some (Json.obj [(k, Json.obj [(k2, Json.str X)])]) →
      finalContent parse content = X) ∧
    (parse content = none → finalContent parse content = content) := by
  have hflat : ∀ k', k' ∈ contentKeys →
      extractText (Json.obj [(k', Json.str X)]) = some X := by
    intro k' hk'
    fin_cases hk' <;>
      simp [extractText, extractFromKeys, contentKeys, lookupField, Json.truthy, hX]
  refine ⟨?_, ?_, ?_⟩
  · intro hp
    simp [finalContent, hp, hflat k hk, pyOrStr, hX]
  · intro hp
    have hnest : extractText (Json.obj [(k, Json.obj [(k2, Json.str X)])]) = some X := by
      fin_cases hk <;>
        simp [extractText, extractFromKeys, contentKeys, lookupField, Json.truthy, hX,
              hflat k2 hk2]
    simp [finalContent, hp, hnest, pyOrStr, hX]
  · intro hp
    simp [finalContent, hp, pyOrStr]

/-- C5 witness: a concrete structured response `{"content": "X"}` yields "X",
and a concrete unparseable plain text is returned unchanged. -/
theorem finalContent_uniform_extraction_witness :
    finalContent
      (fun s => if s = "raw" then some (Json.obj [("content", Json.str "X")]) else none)
      "raw" = "X" ∧
    finalContent (fun _ => none) "plain text" = "plain text" :=
  ⟨(finalContent_uniform_extraction
      (fun s => if s = "raw" then some (Json.obj [("content", Json.str "X")]) else none)
      "raw" "X" "content" "content" (by decide) (by decide) (by decide)).1 (by simp),
   (finalContent_uniform_extraction (fun _ => none) "plain text" "X" "content" "content"
      (by decide) (by decide) (by decide)).2.2 rfl⟩

/-! ### Guardrail check and repair
(`_generate_single_version`, lines 726-820; `_rewrite_with_guardrails`,
lines 861-898)

`ChapterGuardrails` lives in `app/services/chapter_guardrails.py`, which is
not part of the provided sources; per spec section 4.4 its `check` is a
stateless rule evaluator returning a passed flag and a structured violation
list, so it is embedded as an oracle function from the checked text to a
`GuardrailResult`. -/

/-- One structured guardrail violation (spec section 3, GuardrailResult). -/
structure GuardrailViolation where
  vtype : String
  severity : String
  description : String
  deriving Repr, DecidableEq

/-- Modelled from the spec: result of `ChapterGuardrails.check`
(`app/services/chapter_guardrails.py`, file absent from the provided
sources): `passed: bool` plus an ordered violation list. -/
structure GuardrailResult where
  passed : Bool
  violations : List GuardrailViolation
  deriving Repr, DecidableEq

/-- `PipelineOrchestrator._rewrite_with_guardrails` (lines 861-898).
Returns the text to keep together with the number of rewrite LLM calls
issued.  A missing `rewrite_guardrails` prompt skips the repair and keeps
the original; a raising rewrite call is caught and the original is kept;
a successful call returns the cleaned rewrite unconditionally. -/
def rewriteWithGuardrails (rewriteTemplate : Option String)
    (rewriteCall : Except String String) (originalText : String) : String × Nat :=
  match rewriteTemplate with
  | none => (originalText, 0)
  | some _ =>
    match rewriteCall with
    | Except.ok resp => (removeThinkTags resp, 1)
    | Except.error _ => (originalText, 1)

/-- Lines 752-781 of `_generate_single_version`: the content prior to the
guardrail check.  With preview enabled the preview service's
`full_chapter` is used when non-empty (its exceptions propagate: the call
is not wrapped); an empty or skipped preview falls through to the writing
LLM call, whose raw response is cleaned and unwrapped.  The writing call is
not wrapped either, so its exception propagates. -/
def cleanedContent (enablePreview : Bool)
    (previewCall genCall : Except String String) : Except String String :=
  if enablePreview then
    match previewCall with
    | Except.error e => Except.error e
    | Except.ok previewText =>
      if previewText = "" then
        genCall.map fun resp => unwrapMarkdownJson (removeThinkTags resp)
      else Except.ok previewText
  else
    genCall.map fun resp => unwrapMarkdownJson (removeThinkTags resp)

/-- The claim-relevant slice of one version's result: the returned content
and the recorded guardrail metadata (`metadata["guardrail"]`).  The other
metadata entries (chapter_mission, style_hint, pipeline, preview,
parsed_json) carry no logic and are omitted. -/
structure VersionResult where
  content : String
  guardrailPassed : Bool
  guardrailViolations : List GuardrailViolation
  deriving Repr, DecidableEq

/-- Instrumentation of one version's run: how many guardrail checks and
rewrite LLM calls were issued. -/
structure RunStats where
  guardChecks : Nat
  rewriteCalls : Nat
  deriving Repr, DecidableEq

/-- `PipelineOrchestrator._generate_single_version` (lines 726-820):
generate (or preview), guardrail-check once, repair at most once when the
check fails, then extract the final text.  `guardCheck` embeds
`ChapterGuardrails.check` applied to the checked text. -/
def generateSingleVersion (enablePreview : Bool)
    (previewCall genCall : Except String String)
    (guardCheck : String → GuardrailResult)
    (rewriteTemplate : Option String) (rewriteCall : Except String String)
    (parse : String → Option Json) : Except String (VersionResult × RunStats) :=
  match cleanedContent enablePreview previewCall genCall with
  | Except.error e => Except.error e
  | Except.ok content1 =>
    let gr := guardCheck content1
    let repaired :=
      if gr.passed then (content1, 0)
      else rewriteWithGuardrails rewriteTemplate rewriteCall content1
    Except.ok
      ({ content := finalContent parse repaired.1,
         guardrailPassed := gr.passed,
         guardrailViolations := if gr.passed then [] else gr.violations },
       { guardChecks := 1, rewriteCalls := repaired.2 })

/-- C2 (amended): for a version whose guardrail check fails, exactly one
guardrail check runs (no re-check of the repaired text), at most one
rewrite call is issued — exactly one when the rewrite template exists, none
when it is absent; on a missing template or a raising rewrite call the
original text is kept; `passed = false` is recorded in the metadata; and
the returned content is empty exactly when the kept/repaired text is empty
(so it is non-empty whenever that text is non-empty — the unconditional
"never empty" of the original claim fails, see the counterexample). -/
theorem generateSingleVersion_repair_once
    (ep : Bool) (pc gen rw : Except String String)
    (gc : String → GuardrailResult) (tmpl : Option String)
    (parse : String → Option Json) (c1 : String)
    (hclean : cleanedContent ep pc gen = Except.ok c1)
    (hfail : (gc c1).passed = false)
    (hparse : parse "" = none) :
    generateSingleVersion ep pc gen gc tmpl rw parse =
      Except.ok
        ({ content := finalContent parse (rewriteWithGuardrails tmpl rw c1).1,
           guardrailPassed := false,
           guardrailViolations := (gc c1).violations },
         { guardChecks := 1, rewriteCalls := (rewriteWithGuardrails tmpl rw c1).2 }) ∧
    (rewriteWithGuardrails tmpl rw c1).2 ≤ 1 ∧
    (tmpl ≠ none → (rewriteWithGuardrails tmpl rw c1).2 = 1) ∧
    (tmpl = none → (rewriteWithGuardrails tmpl rw c1).1 = c1) ∧
    (∀ e, rw = Except.error e → (rewriteWithGuardrails tmpl rw c1).1 = c1) ∧
    (finalContent parse (rewriteWithGuardrails tmpl rw c1).1 = "" ↔
      (rewriteWithGuardrails tmpl rw c1).1 = "") := by
  refine ⟨?_, ?_, ?_, ?_, ?_, ?_⟩
  · simp [generateSingleVersion, hclean, hfail]
  · cases tmpl <;> cases rw <;> simp [rewriteWithGuardrails]
  · cases tmpl <;> cases rw <;> simp [rewriteWithGuardrails]
  · cases tmpl <;> simp [rewriteWithGuardrails]
  · intro e he
    cases tmpl <;> simp [rewriteWithGuardrails, he]
  · constructor
    · intro hempty
      rcases hx : (parse (rewriteWithGuardrails tmpl rw c1).1).bind extractText with _ | s
      · simpa [finalContent, hx, pyOrStr] using hempty
      · rw [finalContent, hx] at hempty
        by_cases hs : s = "" <;> simp [pyOrStr, hs] at hempty <;> simp_all
    · intro hempty
      simp [finalContent, hempty, hparse, pyOrStr]

/-- C2 witness: a run with a failing guardrail, a present rewrite template
and a raising rewrite call keeps the original text, records passed=false,
checks once and rewrites once. -/
theorem generateSingleVersion_repair_once_witness :
    cleanedContent false (Except.ok "") (Except.ok "preview text") =
      Except.ok "preview text" ∧
    ((fun _ => (⟨false, [⟨"forbidden_character", "high", "x"⟩]⟩ : GuardrailResult))
        ("preview text" : String)).passed = false ∧
    ((fun _ => (none : Option Json)) "") = none ∧
    generateSingleVersion false (Except.ok "") (Except.ok "preview text")
      (fun _ => (⟨false, [⟨"forbidden_character", "high", "x"⟩]⟩ : GuardrailResult))
      (some "rewrite_guardrails") (Except.error "rewrite timeout")
      (fun _ => none) =
      Except.ok
        (⟨"preview text", false, [⟨"forbidden_character", "high", "x"⟩]⟩, ⟨1, 1⟩) := by
  refine ⟨rfl, rfl, rfl, ?_⟩
  have h := generateSingleVersion_repair_once false (Except.ok "") (Except.ok "preview text")
    (Except.error "rewrite timeout")
    (fun _ => (⟨false, [⟨"forbidden_character", "high", "x"⟩]⟩ : GuardrailResult))
    (some "rewrite_guardrails") (fun _ => none) "preview text"
    rfl rfl rfl
  exact h.1

/-- C2 counterexample: the claim's "the version's returned content is never
empty" fails.  A failing guardrail with a rewrite call that returns an
empty (e.g. all-markup) response yields a version whose returned content is
the empty string. -/
theorem generateSingleVersion_empty_content_counterexample :
    (generateSingleVersion false (Except.ok "") (Except.ok "")
        (fun _ => (⟨false, [⟨"forbidden_character", "high", "x"⟩]⟩ : GuardrailResult))
        (some "rewrite_guardrails") (Except.ok "") (fun _ => none)).map
        (fun r => r.1.content) = Except.ok "" := rfl

/-! ### The multi-version generation loop (`generate_chapter`, lines 224-246)

The loop `for idx in range(version_count): versions.append(await
self._generate_single_version(...))` is not wrapped in any try/except, in
`generate_chapter` or above it in the orchestrator: an exception from one
version's generation propagates to the caller unchanged. -/

/-- The body of the generation loop over a list of indices: append each
version in order, propagating the first raised exception unchanged. -/
def genVersionsAux {α : Type} (gen : Nat → Except String α) :
    List Nat → Except String (List α)
  | [] => Except.ok []
  | i :: rest =>
    match gen i with
    | Except.error e => Except.error e
    | Except.ok v =>
      match genVersionsAux gen rest with
      | Except.error e => Except.error e
      | Except.ok vs => Except.ok (v :: vs)

/-- The generation loop for `version_count = n`: indices 0 to n-1 in order. -/
def genVersions {α : Type} (gen : Nat → Except String α) (n : Nat) :
    Except String (List α) :=
  genVersionsAux gen (List.range n)

theorem genVersionsAux_length {α : Type} (gen : Nat → Except String α)
    (l : List Nat) (vs : List α) (h : genVersionsAux gen l = Except.ok vs) :
    vs.length = l.length := by
  induction l generalizing vs with
  | nil =>
    simp [genVersionsAux] at h
    simp [← h]
  | cons i rest ih =>
    rw [genVersionsAux] at h
    rcases hg : gen i with e | v <;> rw [hg] at h
    · exact absurd h (by simp)
    · rcases hr : genVersionsAux gen rest with e | ws <;> rw [hr] at h
      · exact absurd h (by simp)
      · cases h
        simp [ih ws hr]

theorem genVersions_length {α : Type} (gen : Nat → Except String α)
    (n : Nat) (vs : List α) (h : genVersions gen n = Except.ok vs) :
    vs.length = n := by
  simpa using genVersionsAux_length gen (List.range n) vs h

theorem genVersionsAux_error {α : Type} (gen : Nat → Except String α)
    (l1 l2 : List Nat) (i : Nat) (e : String)
    (hok : ∀ j ∈ l1, ∃ v, gen j = Except.ok v) (he : gen i = Except.error e) :
    genVersionsAux gen (l1 ++ i :: l2) = Except.error e := by
  induction l1 with
  | nil => simp [genVersionsAux, he]
  | cons j rest ih =>
    obtain ⟨v, hv⟩ := hok j (by simp)
    rw [List.cons_append, genVersionsAux, hv,
        ih fun j' hj' => hok j' (by simp [hj'])]

theorem range_split (i n : Nat) (h : i < n) :
    ∃ l2, List.range n = List.range i ++ i :: l2 := by
  induction n with
  | zero => omega
  | succ m ih =>
    rcases Nat.lt_or_ge i m with hlt | hge
    · obtain ⟨l2, hl2⟩ := ih hlt
      exact ⟨l2 ++ [m], by rw [List.range_succ, hl2]; simp⟩
    · have : i = m := by omega
      subst this
      exact ⟨[], by rw [List.range_succ]⟩

/-- C7 (amended): if the initial generation of version `i` raises and every
earlier version succeeded, the whole generation loop raises — the request
fails and nothing catches the exception — and the surfaced error is exactly
the LLM call's own error, unchanged (in particular it carries no added
version-index information; see the counterexample). -/
theorem genVersions_propagates_error {α : Type} (gen : Nat → Except String α)
    (n i : Nat) (e : String) (hi : i < n) (he : gen i = Except.error e)
    (hok : ∀ j, j < i → ∃ v, gen j = Except.ok v) :
    genVersions gen n = Except.error e := by
  obtain ⟨l2, hl2⟩ := range_split i n hi
  rw [genVersions, hl2]
  exact genVersionsAux_error gen (List.range i) l2 i e
    (fun j hj => hok j (List.mem_range.mp hj)) he

/-- C7 witness: a concrete three-version run whose second generation call
times out fails as a whole with exactly that error. -/
theorem genVersions_propagates_error_witness :
    (1 : Nat) < 3 ∧
    (fun j => if j = 1 then Except.error "llm timeout"
              else Except.ok "prose") 1 = Except.error "llm timeout" ∧
    genVersions
      (fun j => if j = 1 then Except.error "llm timeout"
                else Except.ok "prose") 3 = Except.error "llm timeout" :=
  ⟨by decide, rfl,
   genVersions_propagates_error
     (fun j => if j = 1 then Except.error "llm timeout" else Except.ok "prose")
     3 1 "llm timeout" (by decide) rfl
     (fun j hj => ⟨"prose", by interval_cases j <;> rfl⟩)⟩

/-- C7 counterexample: the claim's "the surfaced error names the index of
the failing version" fails.  Two runs that fail at different version
indices surface the identical error value (the raw LLM error), so the
surfaced error cannot name the failing index. -/
theorem genVersions_error_not_indexed_counterexample :
    genVersions
      (fun j => if j = 0 then Except.error "llm timeout"
                else Except.ok "prose") 2 = Except.error "llm timeout" ∧
    genVersions
      (fun j => if j = 1 then Except.error "llm timeout"
                else Except.ok "prose") 2 = Except.error "llm timeout" ∧
    genVersions
      (fun j => if j = 0 then Except.error "llm timeout"
                else Except.ok "prose") 2 =
      genVersions
        (fun j => if j = 1 then Except.error "llm timeout"
                  else Except.ok "prose") 2 :=
  ⟨rfl, rfl, rfl⟩

/-! ### Comparative review and best-version selection
(`_run_ai_review`, lines 920-960; `generate_chapter`, lines 248-261) -/

/-- Modelled from the spec: the result object returned by
`AIReviewService.review_versions` (`app/services/ai_review_service.py`,
file absent from the provided sources).  The orchestrator reads
`best_version_index` — an LLM-chosen integer that may lie outside the valid
range — and treats the remaining payload opaquely. -/
structure AIReviewResult where
  best_version_index : Int
  scores : List Int := []
  overall_evaluation : String := ""
  critical_flaws : String := ""
  refinement_suggestions : String := ""
  deriving Repr, DecidableEq

/-- `PipelineOrchestrator._run_ai_review` (lines 920-960): the chosen index,
the optional ai_review summary, and the number of review LLM calls issued.
With at most one version it short-circuits to `(0, none)` before any
service call; a raising or empty review is caught and degrades to
`(0, none)`.  The success branch also annotates each version's metadata
with an `ai_review` entry; no later logic reads it, so it is omitted. -/
def runAiReview (contents : List String)
    (reviewCall : Except String (Option AIReviewResult)) :
    Int × Option AIReviewResult × Nat :=
  if contents.length ≤ 1 then (0, none, 0)
  else
    match reviewCall with
    | Except.error _ => (0, none, 1)
    | Except.ok none => (0, none, 1)
    | Except.ok (some r) => (r.best_version_index, some r, 1)

/-- `generate_chapter` lines 248-261: run the review, put the summary (when
present) under the `"ai_review"` key of `review_summaries`, and clamp the
index into range when versions exist.  Returns (final best_version_index,
whether review_summaries has an "ai_review" key, review LLM call count).
The later post-processing stages only ever add other keys
(enhanced_review, self_critique, reader_simulator, consistency, optimizer,
enrichment), never "ai_review". -/
def reviewAndSelect (contents : List String)
    (reviewCall : Except String (Option AIReviewResult)) : Int × Bool × Nat :=
  let res := runAiReview contents reviewCall
  let best :=
    if contents.isEmpty then 0
    else max 0 (min res.1 ((contents.length : Int) - 1))
  (best, res.2.1.isSome, res.2.2)

/-- C3: when the resolved version_count is 1, the loop yields exactly one
version, and the comparative review short-circuits: best_version_index is
0, no review LLM call is issued, and review_summaries has no "ai_review"
key. -/
theorem reviewAndSelect_single_version
    (gen : Nat → Except String (VersionResult × RunStats))
    (vs : List (VersionResult × RunStats))
    (reviewCall : Except String (Option AIReviewResult))
    (h : genVersions gen 1 = Except.ok vs) :
    vs.length = 1 ∧
    reviewAndSelect (vs.map fun v => v.1.content) reviewCall = (0, false, 0) := by
  have hlen := genVersions_length gen 1 vs h
  refine ⟨hlen, ?_⟩
  rcases vs with _ | ⟨v, rest⟩
  · simp at hlen
  · have : rest = [] := by simpa using hlen
    subst this
    simp [reviewAndSelect, runAiReview]

/-- C3 witness: a concrete one-version run selects index 0 with no review
call and no ai_review key, whatever the reviewer oracle would have said. -/
theorem reviewAndSelect_single_version_witness :
    genVersions (fun _ => Except.ok
        ((⟨"only version", true, []⟩ : VersionResult), (⟨1, 0⟩ : RunStats))) 1 =
      Except.ok [(⟨"only version", true, []⟩, ⟨1, 0⟩)] ∧
    [((⟨"only version", true, []⟩ : VersionResult), (⟨1, 0⟩ : RunStats))].length = 1 ∧
    reviewAndSelect
      ([((⟨"only version", true, []⟩ : VersionResult), (⟨1, 0⟩ : RunStats))].map
        fun v => v.1.content)
      (Except.ok (some ⟨7, [], "", "", ""⟩)) = (0, false, 0) :=
  ⟨rfl,
   (reviewAndSelect_single_version
      (fun _ => Except.ok ((⟨"only version", true, []⟩ : VersionResult), (⟨1, 0⟩ : RunStats)))
      [(⟨"only version", true, []⟩, ⟨1, 0⟩)]
      (Except.ok (some ⟨7, [], "", "", ""⟩)) rfl).1,
   (reviewAndSelect_single_version
      (fun _ => Except.ok ((⟨"only version", true, []⟩ : VersionResult), (⟨1, 0⟩ : RunStats)))
      [(⟨"only version", true, []⟩, ⟨1, 0⟩)]
      (Except.ok (some ⟨7, [], "", "", ""⟩)) rfl).2⟩

/-- C4: with more than one version and a review call that raises or yields
no result, selection still completes normally: best_version_index defaults
to 0, review_summaries has no "ai_review" key, and the failure is swallowed
(the function returns a value; the exception is caught inside
`_run_ai_review`). -/
theorem reviewAndSelect_review_failure
    (contents : List String) (reviewCall : Except String (Option AIReviewResult))
    (h2 : 2 ≤ contents.length)
    (hfail : (∃ e, reviewCall = Except.error e) ∨ reviewCall = Except.ok none) :
    reviewAndSelect contents reviewCall = (0, false, 1) := by
  have hne : ¬ contents.length ≤ 1 := by omega
  have hbounds : max 0 (min (0 : Int) ((contents.length : Int) - 1)) = 0 := by
    have : (1 : Int) ≤ (contents.length : Int) := by exact_mod_cast Nat.le_of_lt h2
    omega
  rcases hfail with ⟨e, he⟩ | he <;>
    simp [reviewAndSelect, runAiReview, he, hne, List.isEmpty_iff, hbounds,
      show contents ≠ [] by intro hc; rw [hc] at h2; simp at h2]

/-- C4 witness: a concrete two-version request whose review raises still
returns best index 0 and no ai_review key. -/
theorem reviewAndSelect_review_failure_witness :
    2 ≤ (["version a", "version b"] : List String).length ∧
    reviewAndSelect ["version a", "version b"]
      (Except.error "review crashed") = (0, false, 1) :=
  ⟨by decide,
   reviewAndSelect_review_failure ["version a", "version b"]
     (Except.error "review crashed") (by decide)
     (Or.inl ⟨"review crashed", rfl⟩)⟩

/-- C10: whenever versions exist, the final best_version_index is clamped
into `[0, len - 1]`, whatever index the reviewer reported (including
out-of-range or negative values). -/
theorem reviewAndSelect_index_in_range
    (contents : List String) (reviewCall : Except String (Option AIReviewResult))
    (hne : contents ≠ []) :
    0 ≤ (reviewAndSelect contents reviewCall).1 ∧
    (reviewAndSelect contents reviewCall).1 ≤ (contents.length : Int) - 1 := by
  have hlen : 1 ≤ (contents.length : Int) := by
    have := List.length_pos.mpr hne
    exact_mod_cast this
  rcases hb : (runAiReview contents reviewCall).1 with b
  simp only [reviewAndSelect, List.isEmpty_iff, if_neg hne, hb]
  omega

/-- C10 witness: two versions with a reviewer reporting index 99 yield a
final index within range (here 1). -/
theorem reviewAndSelect_index_in_range_witness :
    (["version a", "version b"] : List String) ≠ [] ∧
    0 ≤ (reviewAndSelect ["version a", "version b"]
          (Except.ok (some ⟨99, [], "", "", ""⟩))).1 ∧
    (reviewAndSelect ["version a", "version b"]
          (Except.ok (some ⟨99, [], "", "", ""⟩))).1 ≤
      ((["version a", "version b"] : List String).length : Int) - 1 :=
  ⟨by decide,
   (reviewAndSelect_index_in_range ["version a", "version b"]
      (Except.ok (some ⟨99, [], "", "", ""⟩)) (by decide)).1,
   (reviewAndSelect_index_in_range ["version a", "version b"]
      (Except.ok (some ⟨99, [], "", "", ""⟩)) (by decide)).2⟩

/-! ### Knowledge retrieval (`knowledge_retrieval_service.py`)

Stage A: `_generate_search_queries` (lines 387-428); Stage B:
`_retrieve_from_vector_store` (lines 430-486); Stage C: `_filter_knowledge`
(lines 488-554), composed by `retrieve_and_filter` (lines 179-253). -/

/-- The `RetrievedKnowledge` dataclass.  `relevance_score` is a Python
float; its value feeds only log/display formatting, never control flow, so
an integral embedding suffices for every property below. -/
structure RetrievedKnowledge where
  content : String
  source : String
  relevance_score : Int := 0
  chapter_number : Option Int := none
  deriving Repr, DecidableEq

/-- The `ChapterBlueprint` row fields read by this service. -/
structure ChapterBlueprint where
  chapter_number : Int
  brief_summary : Option String := none
  chapter_focus : Option String := none
  chapter_function : Option String := none
  suspense_density : Option String := none
  foreshadowing_ops : Option String := none
  cognitive_twist_level : Option Int := none
  deriving Repr, DecidableEq

/-- The retrieval statistics attached by `retrieve_and_filter` (its
`filtered.stats` dict; the orchestrator later adds a "mode" entry). -/
structure RetrievalStats where
  query_count : Nat
  retrieved_count : Nat
  top_k : Nat
  hit_chapters : List Int
  plot_fuel_count : Nat
  character_info_count : Nat
  world_fragments_count : Nat
  narrative_techniques_count : Nat
  warnings_count : Nat
  total_filtered : Nat
  pov_character : Option String
  deriving Repr, DecidableEq

/-- The `FilteredContext` dataclass. -/
structure FilteredContext where
  plot_fuel : List String
  character_info : List String
  world_fragments : List String
  narrative_techniques : List String
  warnings : List String
  stats : Option RetrievalStats := none
  deriving Repr, DecidableEq

/-- The all-empty `FilteredContext` built on no hits or on filter failure. -/
def emptyFilteredContext : FilteredContext :=
  { plot_fuel := [], character_info := [], world_fragments := [],
    narrative_techniques := [], warnings := [] }

/-- Stage A response parsing (lines 417-424): strip the response, split into
lines, keep non-blank lines stripped, replace `·` by a space. -/
def parseQueries (resp : String) : List String :=
  ((pySplit (pyStrip resp) "\n").filter fun l => pyStrip l ≠ "").map
    fun l => pyReplace (pyStrip l) "·" " "

/-- `_generate_search_queries` (lines 387-428): returns the query list and
the number of LLM calls issued.  No blueprint: no call, no queries.  A
raising call is caught: no queries.  A falsy (empty) response: no queries.
Otherwise the parsed lines, capped at 5. -/
def generateSearchQueries (blueprint : Option ChapterBlueprint)
    (llm : Except String String) : List String × Nat :=
  match blueprint with
  | none => ([], 0)
  | some _ =>
    match llm with
    | Except.error _ => ([], 1)
    | Except.ok resp =>
      if resp = "" then ([], 1)
      else ((parseQueries resp).take 5, 1)

/-- C9 (amended): Stage A issues at most one LLM call per request and
returns at most 5 query strings.  (The original claim's lower bound of 3
fails: the blueprint-missing, call-failure and short-response paths return
fewer — see the counterexample.) -/
theorem generateSearchQueries_bounds (blueprint : Option ChapterBlueprint)
    (llm : Except String String) :
    (generateSearchQueries blueprint llm).2 ≤ 1 ∧
    (generateSearchQueries blueprint llm).1.length ≤ 5 := by
  rcases blueprint with _ | bp
  · simp [generateSearchQueries]
  · rcases llm with e | resp
    · simp [generateSearchQueries]
    · by_cases hr : resp = "" <;>
        simp [generateSearchQueries, hr, List.length_take]

/-- C9 counterexample: the claim's "returns between 3 and 5 ranked
search-query strings" fails.  A blueprint-backed request whose LLM answers
with the single line "foo" yields exactly one query. -/
theorem generateSearchQueries_short_counterexample :
    generateSearchQueries (some ⟨1, none, none, none, none, none, none⟩)
        (Except.ok "foo") = (["foo"], 1) ∧
    (generateSearchQueries (some ⟨1, none, none, none, none, none, none⟩)
        (Except.ok "foo")).1.length < 3 := by
  refine ⟨?_, by decide⟩
  decide

/-- One query's contribution in `_retrieve_from_vector_store`: the search
collaborator's hits, or nothing when the call raises (the exception is
caught and logged, dropping only that query's results).  The dict-to-
`RetrievedKnowledge` conversion with its `.get` defaults is pure data
plumbing, folded into the oracle's output. -/
def searchResultsFor (search : String → Except String (List RetrievedKnowledge))
    (q : String) : List RetrievedKnowledge :=
  match search q with
  | Except.ok rs => rs
  | Except.error _ => []

/-- The dedup loop of `_retrieve_from_vector_store` (lines 479-486):
a `seen` set of contents, keeping each first occurrence. -/
def dedupAux (seen : List String) : List RetrievedKnowledge → List RetrievedKnowledge
  | [] => []
  | r :: rest =>
    if r.content ∈ seen then dedupAux seen rest
    else r :: dedupAux (r.content :: seen) rest

/-- `_retrieve_from_vector_store` (lines 430-486): merge the per-query hits
in query order, then deduplicate by exact content equality. -/
def retrieveFromVectorStore (hasStore : Bool) (queries : List String)
    (search : String → Except String (List RetrievedKnowledge)) :
    List RetrievedKnowledge :=
  if hasStore = false ∨ queries = [] then []
  else dedupAux [] ((queries.map (searchResultsFor search)).flatten)

/-- Specification-side first-occurrence deduplication: keep the head,
remove every later entry with the same content, recurse. -/
def nubByContentFirst : List RetrievedKnowledge → List RetrievedKnowledge
  | [] => []
  | r :: rest =>
    r :: nubByContentFirst (rest.filter fun x => x.content ≠ r.content)
termination_by l => l.length
decreasing_by
  simp only [List.length_cons]
  have := List.length_filter_le (fun x => decide (x.content ≠ r.content)) rest
  omega

theorem mem_of_mem_nubByContentFirst (l : List RetrievedKnowledge) :
    ∀ x, x ∈ nubByContentFirst l → x ∈ l := by
  induction l using nubByContentFirst.induct with
  | case1 =>
    intro x hx
    simp [nubByContentFirst] at hx
  | case2 r rest ih =>
    intro x hx
    rw [nubByContentFirst] at hx
    rcases List.mem_cons.mp hx with hx | hx
    · simp [hx]
    · exact List.mem_cons_of_mem r (List.mem_of_mem_filter (ih x hx))

theorem nubByContentFirst_contents_nodup (l : List RetrievedKnowledge) :
    ((nubByContentFirst l).map fun r => r.content).Nodup := by
  induction l using nubByContentFirst.induct with
  | case1 => simp [nubByContentFirst]
  | case2 r rest ih =>
    rw [nubByContentFirst]
    simp only [List.map_cons, List.nodup_cons]
    refine ⟨?_, ih⟩
    intro hmem
    obtain ⟨x, hx, hxc⟩ := List.mem_map.mp hmem
    have hxf := mem_of_mem_nubByContentFirst _ x hx
    have := List.of_mem_filter hxf
    simp [hxc] at this

theorem dedupAux_eq_nubByContentFirst (l : List RetrievedKnowledge) :
    ∀ seen, dedupAux seen l =
      nubByContentFirst (l.filter fun x => x.content ∉ seen) := by
  induction l with
  | nil => intro seen; simp [dedupAux, nubByContentFirst]
  | cons r rest ih =>
    intro seen
    by_cases hm : r.content ∈ seen
    · rw [dedupAux, if_pos hm, ih seen, List.filter_cons]
      simp [hm]
    · rw [dedupAux, if_neg hm, ih (r.content :: seen), List.filter_cons]
      simp only [hm, not_false_eq_true, decide_eq_true_eq, if_pos]
      conv_rhs => rw [nubByContentFirst]
      rw [List.filter_filter]
      congr 1
      apply congrArg nubByContentFirst
      apply List.filter_congr
      intro x _
      by_cases h1 : x.content ∈ seen <;> by_cases h2 : x.content = r.content <;>
        simp [h1, h2, List.mem_cons]

/-- C8: Stage B's result never holds two entries with the same content, and
it equals the first-occurrence deduplication (in query order) of the merged
per-query hits. -/
theorem retrieveFromVectorStore_dedups_by_content (queries : List String)
    (search : String → Except String (List RetrievedKnowledge)) :
    ((retrieveFromVectorStore true queries search).map fun r => r.content).Nodup ∧
    retrieveFromVectorStore true queries search =
      nubByContentFirst ((queries.map (searchResultsFor search)).flatten) := by
  have hout : retrieveFromVectorStore true queries search =
      nubByContentFirst ((queries.map (searchResultsFor search)).flatten) := by
    rcases queries with _ | ⟨q, qs⟩
    · simp [retrieveFromVectorStore, nubByContentFirst]
    · rw [retrieveFromVectorStore, if_neg (by simp)]
      rw [dedupAux_eq_nubByContentFirst _ []]
      congr 1
      apply List.filter_eq_self.mpr
      intro a _
      simp
  exact ⟨hout ▸ nubByContentFirst_contents_nodup _, hout⟩

/-- Stage C response preprocessing (lines 530-535): strip, then on a
leading code fence take the first fenced block and drop a leading "json"
tag. -/
def processResponse (s : String) : String :=
  let r := pyStrip s
  if pyStartsWith r "```" then
    let r2 := (pySplit r "```").getD 1 ""
    if pyStartsWith r2 "json" then pySlice r2 4 else r2
  else r

/-- `data.get(key, [])` for the category lists: the string elements of the
JSON array bound to the key, `[]` when the key is absent (the dataclass
annotates the fields as `List[str]`). -/
def getStrList (fields : List (String × Json)) (key : String) : List String :=
  match lookupField fields key with
  | some (Json.arr items) =>
    items.filterMap fun j =>
      match j with
      | Json.str str => some str
      | _ => none
  | _ => []

/-- `_filter_knowledge` (lines 488-554).  With no retrieved hits, an
all-empty context is returned before any LLM call.  A raising filter call,
a falsy (empty) response, an unparseable response, or a non-object JSON
value (whose `data.get` raises `AttributeError`) are all caught and degrade
to the all-empty context.  The prompt formatting (retrieved[:10], blueprint
fields, global summary) feeds only the prompt string, which is folded into
the `filterLlm` oracle. -/
def filterKnowledge (retrieved : List RetrievedKnowledge)
    (filterLlm : Except String String) (parse : String → Option Json) :
    FilteredContext :=
  if retrieved = [] then emptyFilteredContext
  else
    match filterLlm with
    | Except.error _ => emptyFilteredContext
    | Except.ok resp =>
      if resp = "" then emptyFilteredContext
      else
        match parse (processResponse resp) with
        | some (Json.obj fields) =>
          { plot_fuel := getStrList fields "plot_fuel",
            character_info := getStrList fields "character_info",
            world_fragments := getStrList fields "world_fragments",
            narrative_techniques := getStrList fields "narrative_techniques",
            warnings := getStrList fields "warnings" }
        | _ => emptyFilteredContext

/-- `sorted({r.chapter_number for r in retrieved if r.chapter_number})`:
the ascending sorted set of truthy (non-None, non-zero) hit chapters. -/
def hitChapters (retrieved : List RetrievedKnowledge) : List Int :=
  List.insertionSort (· ≤ ·)
    (((retrieved.filterMap fun r => r.chapter_number).filter fun c => c ≠ 0).dedup)

/-- `retrieve_and_filter` (lines 179-253): Stage A, Stage B, Stage C, then
the stats dict is attached to the filtered context.  The project-memory
read supplying the global summary only feeds the Stage C prompt and is
folded into the `filterLlm` oracle. -/
def retrieveAndFilter (blueprint : Option ChapterBlueprint)
    (queryLlm : Except String String) (hasStore : Bool)
    (search : String → Except String (List RetrievedKnowledge))
    (filterLlm : Except String String) (parse : String → Option Json)
    (povCharacter : Option String) (topK : Nat) : FilteredContext :=
  let queries := (generateSearchQueries blueprint queryLlm).1
  let retrieved := retrieveFromVectorStore hasStore queries search
  let filtered := filterKnowledge retrieved filterLlm parse
  { filtered with
    stats := some
      { query_count := queries.length,
        retrieved_count := retrieved.length,
        top_k := topK,
        hit_chapters := hitChapters retrieved,
        plot_fuel_count := filtered.plot_fuel.length,
        character_info_count := filtered.character_info.length,
        world_fragments_count := filtered.world_fragments.length,
        narrative_techniques_count := filtered.narrative_techniques.length,
        warnings_count := filtered.warnings.length,
        total_filtered := filtered.plot_fuel.length +
          filtered.character_info.length + filtered.world_fragments.length +
          filtered.narrative_techniques.length + filtered.warnings.length,
        pov_character := povCharacter } }

/-- C6: `retrieve_and_filter` is fail-open.  When Stage B yields zero
deduplicated hits, or the Stage C response does not parse as JSON, the
returned context has all four category lists empty and an empty warnings
list (and it is returned normally — the embedding is a total function). -/
theorem retrieveAndFilter_fail_open (blueprint : Option ChapterBlueprint)
    (queryLlm : Except String String) (hasStore : Bool)
    (search : String → Except String (List RetrievedKnowledge))
    (filterLlm : Except String String) (parse : String → Option Json)
    (povCharacter : Option String) (topK : Nat)
    (h : retrieveFromVectorStore hasStore
           (generateSearchQueries blueprint queryLlm).1 search = [] ∨
         (∃ s, filterLlm = Except.ok s ∧ parse (processResponse s) = none)) :
    (retrieveAndFilter blueprint queryLlm hasStore search filterLlm parse
      povCharacter topK).plot_fuel = [] ∧
    (retrieveAndFilter blueprint queryLlm hasStore search filterLlm parse
      povCharacter topK).character_info = [] ∧
    (retrieveAndFilter blueprint queryLlm hasStore search filterLlm parse
      povCharacter topK).world_fragments = [] ∧
    (retrieveAndFilter blueprint queryLlm hasStore search filterLlm parse
      povCharacter topK).narrative_techniques = [] ∧
    (retrieveAndFilter blueprint queryLlm hasStore search filterLlm parse
      povCharacter topK).warnings = [] := by
  have hempty : filterKnowledge
      (retrieveFromVectorStore hasStore (generateSearchQueries blueprint queryLlm).1 search)
      filterLlm parse = emptyFilteredContext := by
    rcases h with h | ⟨resp, hcall, hparse⟩
    · simp [filterKnowledge, h]
    · by_cases hr : retrieveFromVectorStore hasStore
          (generateSearchQueries blueprint queryLlm).1 search = []
      · simp [filterKnowledge, hr]
      · by_cases hblank : resp = "" <;>
          simp [filterKnowledge, hr, hcall, hblank, hparse]
  simp [retrieveAndFilter, hempty, emptyFilteredContext]

/-- C6 witness: two concrete fail-open runs — one with zero retrieved hits
(no blueprint, hence no queries), one with hits but an unparseable Stage C
response — both return the all-empty context lists. -/
theorem retrieveAndFilter_fail_open_witness :
    (retrieveFromVectorStore true
        (generateSearchQueries none (Except.ok "q1")).1
        (fun _ => Except.ok []) = [] ∨
      (∃ s, (Except.ok "not json" : Except String String) = Except.ok s ∧
        (fun _ => (none : Option Json)) (processResponse s) = none)) ∧
    (retrieveAndFilter none (Except.ok "q1") true (fun _ => Except.ok [])
      (Except.ok "not json") (fun _ => none) (some "主角") 5).plot_fuel = [] ∧
    (retrieveAndFilter none (Except.ok "q1") true (fun _ => Except.ok [])
      (Except.ok "not json") (fun _ => none) (some "主角") 5).warnings = [] ∧
    (retrieveAndFilter (some ⟨2, none, none, none, none, none, none⟩)
      (Except.ok "query line") true
      (fun _ => Except.ok [⟨"hit content", "chapter", 1, some 1⟩])
      (Except.ok "not json") (fun _ => none) none 5).plot_fuel = [] ∧
    (retrieveAndFilter (some ⟨2, none, none, none, none, none, none⟩)
      (Except.ok "query line") true
      (fun _ => Except.ok [⟨"hit content", "chapter", 1, some 1⟩])
      (Except.ok "not json") (fun _ => none) none 5).warnings = [] := by
  refine ⟨Or.inl rfl, ?_, ?_, ?_, ?_⟩
  · exact (retrieveAndFilter_fail_open none (Except.ok "q1") true (fun _ => Except.ok [])
      (Except.ok "not json") (fun _ => none) (some "主角") 5 (Or.inl rfl)).1
  · exact (retrieveAndFilter_fail_open none (Except.ok "q1") true (fun _ => Except.ok [])
      (Except.ok "not json") (fun _ => none) (some "主角") 5 (Or.inl rfl)).2.2.2.2
  · exact (retrieveAndFilter_fail_open (some ⟨2, none, none, none, none, none, none⟩)
      (Except.ok "query line") true
      (fun _ => Except.ok [⟨"hit content", "chapter", 1, some 1⟩])
      (Except.ok "not json") (fun _ => none) none 5
      (Or.inr ⟨"not json", rfl, rfl⟩)).1
  · exact (retrieveAndFilter_fail_open (some ⟨2, none, none, none, none, none, none⟩)
      (Except.ok "query line") true
      (fun _ => Except.ok [⟨"hit content", "chapter", 1, some 1⟩])
      (Except.ok "not json") (fun _ => none) none 5
      (Or.inr ⟨"not json", rfl, rfl⟩)).2.2.2.2

end Arboris
